import Mathlib

/-!
Verification of the invoice-list component of GM-CAR-A-C-SERVICE-BILLING
(src/gm-car-ac-service-billing/src/components/InvoiceList.tsx).

The component manages an ordered collection of invoices held in browser
local storage, filters it by vehicle-number substring and inclusive date
range, and offers delete / PDF-export / share actions.  The embedding
below translates the data model and the relevant handlers into pure Lean
functions; UI effects (toasts, generated documents, opened links) are
returned as explicit outputs, and the component's React state is an
explicit record threaded through the handlers.
-/

namespace GMBilling

/-- `interface ServiceItem { description: string; amount: number }`. -/
structure ServiceItem where
  description : String
  amount : Int
deriving Repr, DecidableEq

/-- `interface Invoice` from InvoiceList.tsx: one billing record. -/
structure Invoice where
  id : String
  date : String
  customerName : String
  customerPhone : String
  vehicleModel : String
  vehicleNumber : String
  services : List ServiceItem
  total : Int
deriving Repr, DecidableEq

/-- JS `String.prototype.trim()`: strip leading and trailing whitespace
(modelled over the character list, so that it evaluates by kernel
reduction). -/
def strTrim (s : String) : String :=
  String.mk (((s.toList.dropWhile Char.isWhitespace).reverse.dropWhile
    Char.isWhitespace).reverse)

/-- JS `String.prototype.toLowerCase()`, character-wise (ASCII model). -/
def strToLower (s : String) : String :=
  String.mk (s.toList.map Char.toLower)

/-- Split a character list at every dash (auxiliary for the ISO date
parser; mirrors splitting `YYYY-MM-DD` on the separator). -/
def splitOnDash : List Char → List (List Char)
  | [] => [[]]
  | c :: cs =>
    let rest := splitOnDash cs
    if c = '-' then [] :: rest
    else
      match rest with
      | [] => [[c]]
      | r :: rs => (c :: r) :: rs

/-- A run of characters parses as a natural number when it is non-empty and
all digits (auxiliary for the date parser). -/
def parseNatDigits (cs : List Char) : Option Nat :=
  if cs ≠ [] ∧ cs.all Char.isDigit then
    some (cs.foldl (fun a c => a * 10 + (c.toNat - 48)) 0)
  else none

/-- `parseInvoiceDate` from InvoiceList.tsx.  The source first tries the
native `Date` constructor and falls back to a strict ISO parse
(`parseISO`); both accept ISO `YYYY-MM-DD` strings, and a string neither
accepts yields an invalid date (`NaN` time value), modelled here as
`none`.  A parsed calendar date is encoded as the key
`year * 10000 + month * 100 + day`, which is order-isomorphic to calendar
order, so the date-fns comparators `isBefore` / `isAfter` / `isEqual`
become `<` / `>` / `=` on the key. -/
def parseInvoiceDate (date : String) : Option Nat :=
  match splitOnDash date.toList with
  | [y, m, d] =>
    match parseNatDigits y, parseNatDigits m, parseNatDigits d with
    | some yn, some mn, some dn =>
      if 1 ≤ mn ∧ mn ≤ 12 ∧ 1 ≤ dn ∧ dn ≤ 31 then
        some (yn * 10000 + mn * 100 + dn)
      else none
    | _, _, _ => none
  | _ => none

/-- `pat` is a prefix of `hay` (auxiliary for substring containment). -/
def startsWithSeq : List Char → List Char → Bool
  | _, [] => true
  | [], _ :: _ => false
  | h :: hs, p :: ps => h = p && startsWithSeq hs ps

/-- `pat` occurs contiguously somewhere in `hay` (auxiliary). -/
def containsSeq : List Char → List Char → Bool
  | [], pat => pat.isEmpty
  | h :: hs, pat => startsWithSeq (h :: hs) pat || containsSeq hs pat

/-- JS `hay.includes(pat)`: substring containment. -/
def strIncludes (hay pat : String) : Bool :=
  containsSeq hay.toList pat.toList

/-- The vehicle-number predicate of the filter effect:
`invoice.vehicleNumber.toLowerCase().includes(searchVehicle.trim().toLowerCase())`. -/
def vehicleMatches (searchVehicle : String) (inv : Invoice) : Bool :=
  strIncludes (strToLower inv.vehicleNumber) (strToLower (strTrim searchVehicle))

/-- The date-range predicate of the filter effect:
`(isAfter(d, from) || isEqual(d, from)) && (isBefore(d, to) || isEqual(d, to))`
where `d = parseInvoiceDate(invoice.date)`.  On an invalid date every
date-fns comparator returns `false`, so the predicate is `false`. -/
def invoiceInDateRange (inv : Invoice) (dateFrom dateTo : Nat) : Bool :=
  match parseInvoiceDate inv.date with
  | none => false
  | some d => (dateFrom ≤ d) && (d ≤ dateTo)

/-- The filter `useEffect` of InvoiceList.tsx (lines 74–94): starting from
the master collection, apply the vehicle-substring filter when the trimmed
search text is non-empty, then the date filter when both range bounds are
present. -/
def filterInvoices (invoices : List Invoice) (searchVehicle : String)
    (dateFrom dateTo : Option Nat) : List Invoice :=
  let result := invoices
  let result :=
    if strTrim searchVehicle ≠ "" then
      result.filter (fun invoice => vehicleMatches searchVehicle invoice)
    else result
  match dateFrom, dateTo with
  | some f, some t => result.filter (fun invoice => invoiceInDateRange invoice f t)
  | _, _ => result

/-- The React state of `InvoiceList` plus the persisted store: the
local-storage entry `invoices` (`store`), the master collection
(`invoices`), the filtered view (`filteredInvoices`), the pending-delete
id (`invoiceToDelete`), and the filter criteria (`searchVehicle`,
`dateFrom`/`dateTo`).  User-visible notifications and generated documents
are modelled as explicit outputs of the handlers, not as state. -/
structure ListState where
  store : List Invoice
  invoices : List Invoice
  filteredInvoices : List Invoice
  invoiceToDelete : Option String
  searchVehicle : String
  dateFrom : Option Nat
  dateTo : Option Nat
deriving Repr, DecidableEq

/-- `handleDelete` from InvoiceList.tsx (lines 184–191): filter the master
collection by `invoice.id !== id`, persist the result wholesale, set both
the master collection and the filtered view to it, fire the success toast,
and clear the pending-delete id.  Returns the new state and the emitted
toasts. -/
def handleDelete (s : ListState) (id : String) : ListState × List String :=
  let updatedInvoices := s.invoices.filter (fun invoice => invoice.id ≠ id)
  ({ s with store := updatedInvoices,
            invoices := updatedInvoices,
            filteredInvoices := updatedInvoices,
            invoiceToDelete := none },
   ["Invoice deleted successfully"])

/-- Models the external date-fns formatter `format(d, 'PPP')`: an opaque
rendering of the parsed date performed by a collaborator outside this
component; represented concretely by printing the date key. -/
def formatPPP : Option Nat → String
  | some k => toString k
  | none => "Invalid Date"

/-- The numbered service lines of `generatePdf`
(`invoice.services.forEach((service, index) => doc.text(...))`):
each service renders as `"<index+1>. <description> - ₹<amount>"`. -/
def serviceLines : Nat → List ServiceItem → List String
  | _, [] => []
  | i, service :: rest =>
    (toString (i + 1) ++ ". " ++ service.description ++ " - ₹" ++ toString service.amount)
      :: serviceLines (i + 1) rest

/-- `generatePdf` from InvoiceList.tsx (lines 102–127), as the ordered
sequence of text lines handed to the external PDF renderer (each
`doc.text` call emits one line, in call order). -/
def generatePdfLines (invoice : Invoice) : List String :=
  ["Invoice #" ++ invoice.id,
   "Date: " ++ formatPPP (parseInvoiceDate invoice.date),
   "Customer Name: " ++ invoice.customerName,
   "Phone: " ++ invoice.customerPhone,
   "Vehicle Model: " ++ invoice.vehicleModel,
   "Vehicle Number: " ++ invoice.vehicleNumber,
   "Services:"]
  ++ serviceLines 0 invoice.services
  ++ ["Total: ₹" ++ toString invoice.total]

/-- A generated document: the line sequence handed to the PDF renderer. -/
structure PdfDoc where
  lines : List String
deriving Repr, DecidableEq

/-- A client-side save action: a file name and its document. -/
structure SavedFile where
  fileName : String
  doc : PdfDoc
deriving Repr, DecidableEq

/-- `customerName.replace(/\s+/g, '_')`: each maximal whitespace run
becomes a single underscore (auxiliary; the flag records whether the
previous character was whitespace). -/
def replaceWsRuns : Bool → List Char → List Char
  | _, [] => []
  | prevWs, c :: cs =>
    if c.isWhitespace then
      (if prevWs then [] else ['_']) ++ replaceWsRuns true cs
    else
      c :: replaceWsRuns false cs

/-- The `safeName` computed by `downloadInvoice` and
`saveAllInvoicesAsPDF`. -/
def safeName (s : String) : String :=
  String.mk (replaceWsRuns false s.toList)

/-- The saved file built for one invoice (shared by `downloadInvoice`
and `saveAllInvoicesAsPDF`, which inline identical code in the source):
`Invoice_<safeName>_<id>.pdf` holding the generated document. -/
def savedFileFor (invoice : Invoice) : SavedFile :=
  { fileName := "Invoice_" ++ safeName invoice.customerName ++ "_" ++ invoice.id ++ ".pdf",
    doc := { lines := generatePdfLines invoice } }

/-- `downloadInvoice` from InvoiceList.tsx (lines 129–133): generate the
document and trigger one client-side save; touches no component state. -/
def downloadInvoice (s : ListState) (invoice : Invoice) : ListState × SavedFile :=
  (s, savedFileFor invoice)

/-- `saveAllInvoicesAsPDF` from InvoiceList.tsx (lines 171–178): for each
invoice of the filtered view in order, generate its document and trigger
a save, then fire the success toast; touches no component state. -/
def saveAllInvoicesAsPDF (s : ListState) : ListState × List SavedFile × List String :=
  (s, s.filteredInvoices.map savedFileFor, ["All invoices saved as PDFs"])

/-- `customerPhone.replace(/[^\d]/g, '')`: keep only digit characters. -/
def stripNonDigits (s : String) : String :=
  String.mk (s.toList.filter Char.isDigit)

/-- Uppercase hexadecimal digit (auxiliary for percent-encoding). -/
def hexDigit (n : Nat) : Char :=
  if n < 10 then Char.ofNat (48 + n) else Char.ofNat (55 + n)

/-- Percent-encoding of one byte (auxiliary). -/
def percentByte (b : Nat) : List Char :=
  ['%', hexDigit (b / 16), hexDigit (b % 16)]

/-- Characters `encodeURIComponent` leaves unescaped:
alphanumerics and `- _ . ! ~ * ' ( )`. -/
def isUnreservedURI (c : Char) : Bool :=
  c.isAlphanum || c ∈ ['-', '_', '.', '!', '~', '*', Char.ofNat 39, '(', ')']

/-- JS `encodeURIComponent`: unreserved characters pass through, every
other character is replaced by the percent-encoding of its UTF-8 bytes. -/
def encodeURIComponent (s : String) : String :=
  String.mk
    ((s.toList.map (fun c =>
      if isUnreservedURI c then [c]
      else ((String.singleton c).toUTF8.toList.map (fun b => percentByte b.toNat)).flatten)).flatten)

/-- The WhatsApp fallback message of `handleShare` (lines 156–160),
before URL-encoding. -/
def waMessage (invoice : Invoice) : String :=
  "Hi " ++ invoice.customerName ++ ", here\u0027s your invoice for "
    ++ invoice.vehicleModel ++ " (" ++ invoice.vehicleNumber ++ ").\n"
    ++ "Total: ₹" ++ toString invoice.total ++ "\n"
    ++ "Download PDF:"

/-- The observable effects of one `handleShare` call: error toasts,
documents generated (calls to `generatePdf`), native share invocations
(title, text, attached file name), and opened fallback links. -/
structure ShareEffects where
  errorToasts : List String
  generatedDocs : List PdfDoc
  nativeShareCalls : List (String × String × String)
  openedLinks : List String
deriving Repr, DecidableEq

/-- `handleShare` from InvoiceList.tsx (lines 135–169): an exactly empty
`customerPhone` (the only falsy string) aborts with an error toast and no
further action; otherwise the document is generated and either the native
share capability is invoked (`navigator.share` present, modelled by
`hasNativeShare`) or a WhatsApp deep link is opened with the phone
stripped to digits and the URL-encoded message.  State is threaded to
record that the handler touches none of it. -/
def handleShare (s : ListState) (hasNativeShare : Bool) (invoice : Invoice) :
    ListState × ShareEffects :=
  if invoice.customerPhone = "" then
    (s, { errorToasts := ["Customer phone number is missing."],
          generatedDocs := [], nativeShareCalls := [], openedLinks := [] })
  else
    let doc : PdfDoc := { lines := generatePdfLines invoice }
    if hasNativeShare then
      (s, { errorToasts := [],
            generatedDocs := [doc],
            nativeShareCalls :=
              [("Invoice " ++ invoice.id,
                "Hi " ++ invoice.customerName ++ ", here\u0027s your invoice for "
                  ++ invoice.vehicleModel ++ " (" ++ invoice.vehicleNumber ++ ")",
                "Invoice_" ++ invoice.id ++ ".pdf")],
            openedLinks := [] })
    else
      let phone := stripNonDigits invoice.customerPhone
      let message := encodeURIComponent (waMessage invoice)
      (s, { errorToasts := [],
            generatedDocs := [doc],
            nativeShareCalls := [],
            openedLinks := ["https://wa.me/" ++ phone ++ "?text=" ++ message] })

/-! ### Helper lemmas -/

/-- Filtering twice by the same predicate equals filtering once. -/
theorem filter_self_idem {α : Type} (p : α → Bool) (l : List α) :
    (l.filter p).filter p = l.filter p := by
  apply List.filter_eq_self.mpr
  intro a ha
  exact (List.mem_filter.mp ha).2

/-- With no date range, `filterInvoices` is the vehicle filter (or the
identity when the trimmed search text is empty). -/
theorem filterInvoices_none_none (C : List Invoice) (s : String) :
    filterInvoices C s none none =
      if strTrim s ≠ "" then C.filter (fun invoice => vehicleMatches s invoice) else C := by
  rfl

/-- With both bounds present, `filterInvoices` is the date filter applied
after the vehicle step. -/
theorem filterInvoices_some_some (C : List Invoice) (s : String) (a b : Nat) :
    filterInvoices C s (some a) (some b) =
      (filterInvoices C s none none).filter
        (fun invoice => invoiceInDateRange invoice a b) := by
  rfl

/-! ### Claim theorems -/

/-- C5: filtering with an empty (after trimming) vehicle substring and no
date range returns the collection itself, unmodified. -/
theorem filterInvoices_identity (C : List Invoice) (s : String) (h : strTrim s = "") :
    filterInvoices C s none none = C := by
  rw [filterInvoices_none_none, if_neg]
  simp [h]

/-- C2: with a non-trivial vehicle substring and no date range, the result
is exactly the stable subsequence of those invoices whose `vehicleNumber`
contains the trimmed substring case-insensitively: it equals the filter of
the collection by the source predicate, it is a sublist of the input,
every kept invoice matches, and no excluded invoice matches. -/
theorem filterInvoices_vehicle_substring (C : List Invoice) (s : String)
    (h : strTrim s ≠ "") :
    filterInvoices C s none none = C.filter (fun invoice => vehicleMatches s invoice)
    ∧ List.Sublist (filterInvoices C s none none) C
    ∧ (∀ inv ∈ filterInvoices C s none none, vehicleMatches s inv = true)
    ∧ (∀ inv ∈ C, inv ∉ filterInvoices C s none none → vehicleMatches s inv = false) := by
  have he : filterInvoices C s none none
      = C.filter (fun invoice => vehicleMatches s invoice) := by
    rw [filterInvoices_none_none, if_pos h]
  refine ⟨he, ?_, ?_, ?_⟩
  · rw [he]; exact List.filter_sublist C
  · intro inv hinv
    rw [he] at hinv
    exact (List.mem_filter.mp hinv).2
  · intro inv hC hnot
    by_contra hmatch
    exact hnot (he ▸ List.mem_filter.mpr ⟨hC, by simpa using hmatch⟩)

/-- C3: with both date bounds present and `a ≤ b`, every invoice of the
result parses to a date inside the inclusive range; an invoice dated
exactly `a` or exactly `b` passes the date predicate; and the date
criterion composes with the vehicle criterion as a logical AND. -/
theorem filterInvoices_date_range (C : List Invoice) (s : String) (a b : Nat)
    (hab : a ≤ b) :
    (∀ inv ∈ filterInvoices C s (some a) (some b),
       ∃ d, parseInvoiceDate inv.date = some d ∧ a ≤ d ∧ d ≤ b)
    ∧ (∀ inv : Invoice, parseInvoiceDate inv.date = some a →
         invoiceInDateRange inv a b = true)
    ∧ (∀ inv : Invoice, parseInvoiceDate inv.date = some b →
         invoiceInDateRange inv a b = true)
    ∧ (∀ inv : Invoice, inv ∈ filterInvoices C s (some a) (some b) ↔
         inv ∈ filterInvoices C s none none ∧ invoiceInDateRange inv a b = true) := by
  refine ⟨?_, ?_, ?_, ?_⟩
  · intro inv hinv
    rw [filterInvoices_some_some] at hinv
    have hrange := (List.mem_filter.mp hinv).2
    unfold invoiceInDateRange at hrange
    cases hd : parseInvoiceDate inv.date with
    | none => rw [hd] at hrange; exact absurd hrange (by simp)
    | some d =>
      rw [hd] at hrange
      simp only [Bool.and_eq_true, decide_eq_true_eq] at hrange
      exact ⟨d, rfl, hrange.1, hrange.2⟩
  · intro inv hd
    unfold invoiceInDateRange
    rw [hd]
    simp [hab]
  · intro inv hd
    unfold invoiceInDateRange
    rw [hd]
    simp [hab]
  · intro inv
    rw [filterInvoices_some_some, List.mem_filter]

/-- C4: an invoice whose date string is unparsable is excluded from any
date-filtered result, and the filter remains well defined (a sublist of
the input) on a collection containing it — the parse failure never makes
the filter crash. -/
theorem filterInvoices_unparsable_excluded (C : List Invoice) (s : String)
    (a b : Nat) (inv : Invoice) (h : parseInvoiceDate inv.date = none) :
    inv ∉ filterInvoices C s (some a) (some b)
    ∧ List.Sublist (filterInvoices C s (some a) (some b)) C := by
  constructor
  · intro hinv
    rw [filterInvoices_some_some] at hinv
    have hrange := (List.mem_filter.mp hinv).2
    unfold invoiceInDateRange at hrange
    rw [h] at hrange
    exact absurd hrange (by simp)
  · rw [filterInvoices_some_some, filterInvoices_none_none]
    by_cases hs : strTrim s ≠ ""
    · rw [if_pos hs]
      exact List.Sublist.trans (List.filter_sublist _) (List.filter_sublist _)
    · rw [if_neg hs]
      exact List.filter_sublist C

/-- C6: the filter is idempotent — refiltering an already filtered
collection with the same criteria returns it unchanged. -/
theorem filterInvoices_idempotent (C : List Invoice) (s : String)
    (f t : Option Nat) :
    filterInvoices (filterInvoices C s f t) s f t = filterInvoices C s f t := by
  have hnone : ∀ D : List Invoice,
      filterInvoices (filterInvoices D s none none) s none none
        = filterInvoices D s none none := by
    intro D
    rw [filterInvoices_none_none D, filterInvoices_none_none]
    by_cases hs : strTrim s ≠ ""
    · simp only [if_pos hs]
      exact filter_self_idem _ D
    · simp only [if_neg hs]
  match f, t with
  | some a, some b =>
    rw [filterInvoices_some_some C s a b, filterInvoices_some_some _ s a b]
    rw [filterInvoices_none_none, filterInvoices_none_none]
    by_cases hs : strTrim s ≠ ""
    · rw [if_pos hs, if_pos hs]
      have hall : ((C.filter (fun invoice => vehicleMatches s invoice)).filter
          (fun invoice => invoiceInDateRange invoice a b)).filter
            (fun invoice => vehicleMatches s invoice)
          = (C.filter (fun invoice => vehicleMatches s invoice)).filter
              (fun invoice => invoiceInDateRange invoice a b) := by
        apply List.filter_eq_self.mpr
        intro inv hinv
        exact (List.mem_filter.mp (List.mem_filter.mp hinv).1).2
      rw [hall, filter_self_idem]
    · rw [if_neg hs, if_neg hs, filter_self_idem]
  | some _, none => exact hnone C
  | none, some _ => exact hnone C
  | none, none => exact hnone C

/-- The numbered service lines have one line per service. -/
theorem serviceLines_length (i : Nat) (l : List ServiceItem) :
    (serviceLines i l).length = l.length := by
  induction l generalizing i with
  | nil => rfl
  | cons hd tl ih => simp [serviceLines, ih]

/-- The `k`-th numbered service line renders the `k`-th service with
index `i + k + 1`. -/
theorem serviceLines_getElem (i k : Nat) (l : List ServiceItem)
    (svc : ServiceItem) (h : l[k]? = some svc) :
    (serviceLines i l)[k]? =
      some (toString (i + k + 1) ++ ". " ++ svc.description ++ " - ₹"
        ++ toString svc.amount) := by
  induction l generalizing i k with
  | nil => simp at h
  | cons hd tl ih =>
    cases k with
    | zero =>
      simp only [List.getElem?_cons_zero, Option.some_inj] at h
      subst h
      simp [serviceLines]
    | succ k =>
      have h' : tl[k]? = some svc := by simpa using h
      have harith : i + 1 + k = i + (k + 1) := by omega
      have := ih (i + 1) k h'
      simpa [serviceLines, harith] using this

/-- C1: `handleDelete` removes exactly the invoices with the given id:
the new master collection is the source filter of the old one, contains
no invoice with that id, is a stable sublist of the old collection (all
other elements unchanged in content and relative order), equals the old
collection when the id was absent, is what gets persisted and displayed,
and the success toast fires in every case. -/
theorem handleDelete_removes_id (s : ListState) (x : String) :
    (handleDelete s x).1.invoices = s.invoices.filter (fun invoice => invoice.id ≠ x)
    ∧ (∀ inv ∈ (handleDelete s x).1.invoices, inv.id ≠ x)
    ∧ List.Sublist (handleDelete s x).1.invoices s.invoices
    ∧ ((∀ inv ∈ s.invoices, inv.id ≠ x) → (handleDelete s x).1.invoices = s.invoices)
    ∧ (handleDelete s x).1.store = (handleDelete s x).1.invoices
    ∧ (handleDelete s x).1.filteredInvoices = (handleDelete s x).1.invoices
    ∧ (handleDelete s x).2 = ["Invoice deleted successfully"] := by
  refine ⟨rfl, ?_, ?_, ?_, rfl, rfl, rfl⟩
  · intro inv hinv
    have hmem : inv ∈ s.invoices.filter (fun invoice => decide (invoice.id ≠ x)) := hinv
    have := (List.mem_filter.mp hmem).2
    simpa using this
  · exact List.filter_sublist _
  · intro hall
    show s.invoices.filter (fun invoice => decide (invoice.id ≠ x)) = s.invoices
    apply List.filter_eq_self.mpr
    intro a ha
    simpa using hall a ha

/-- C7: the export mapper emits, in fixed order, the invoice identifier,
formatted date, customer name, phone, vehicle model and vehicle number
(the first lines), then one line per service rendered as
`"<index>. <description> - ₹<amount>"` with indices from 1 in service
order, and finally the total line `"Total: ₹<total>"` as the last line;
the whole mapping is a pure function of the invoice. -/
theorem generatePdfLines_fixed_order (invoice : Invoice) :
    (generatePdfLines invoice).take 7 =
      ["Invoice #" ++ invoice.id,
       "Date: " ++ formatPPP (parseInvoiceDate invoice.date),
       "Customer Name: " ++ invoice.customerName,
       "Phone: " ++ invoice.customerPhone,
       "Vehicle Model: " ++ invoice.vehicleModel,
       "Vehicle Number: " ++ invoice.vehicleNumber,
       "Services:"]
    ∧ (∀ (k : Nat) (svc : ServiceItem), invoice.services[k]? = some svc →
        (generatePdfLines invoice)[7 + k]? =
          some (toString (k + 1) ++ ". " ++ svc.description ++ " - ₹"
            ++ toString svc.amount))
    ∧ (generatePdfLines invoice).getLast?
        = some ("Total: ₹" ++ toString invoice.total)
    ∧ (generatePdfLines invoice).length = invoice.services.length + 8 := by
  refine ⟨rfl, ?_, ?_, ?_⟩
  · intro k svc h
    have hk : k < invoice.services.length := by
      rcases List.getElem?_eq_some.mp h with ⟨hlt, _⟩
      exact hlt
    have hsl : k < (serviceLines 0 invoice.services).length := by
      rw [serviceLines_length]; exact hk
    unfold generatePdfLines
    rw [List.getElem?_append_left (by simp [serviceLines_length]; omega)]
    rw [List.getElem?_append_right (by simp)]
    have := serviceLines_getElem 0 k invoice.services svc h
    simpa using this
  · unfold generatePdfLines
    exact List.getLast?_concat _
  · unfold generatePdfLines
    simp [serviceLines_length]

/-- C8: sharing an invoice whose `customerPhone` is exactly empty reports
the validation toast and nothing else happens: no document is generated,
no native share call and no fallback link occurs, and the component state
is untouched. -/
theorem handleShare_empty_phone (st : ListState) (hasNativeShare : Bool)
    (invoice : Invoice) (h : invoice.customerPhone = "") :
    (handleShare st hasNativeShare invoice).1 = st
    ∧ (handleShare st hasNativeShare invoice).2.errorToasts
        = ["Customer phone number is missing."]
    ∧ (handleShare st hasNativeShare invoice).2.generatedDocs = []
    ∧ (handleShare st hasNativeShare invoice).2.nativeShareCalls = []
    ∧ (handleShare st hasNativeShare invoice).2.openedLinks = [] := by
  simp [handleShare, h]

/-- C9: `downloadInvoice` and `saveAllInvoicesAsPDF` leave every piece of
state unchanged: the whole state record, and in particular the master
collection, the filtered view, the filter criteria, the pending-delete id
and the persisted store, are identical before and after. -/
theorem export_preserves_state (st : ListState) (invoice : Invoice) :
    (downloadInvoice st invoice).1 = st
    ∧ (saveAllInvoicesAsPDF st).1 = st
    ∧ (saveAllInvoicesAsPDF st).1.invoices = st.invoices
    ∧ (saveAllInvoicesAsPDF st).1.filteredInvoices = st.filteredInvoices
    ∧ (saveAllInvoicesAsPDF st).1.searchVehicle = st.searchVehicle
    ∧ (saveAllInvoicesAsPDF st).1.dateFrom = st.dateFrom
    ∧ (saveAllInvoicesAsPDF st).1.dateTo = st.dateTo
    ∧ (saveAllInvoicesAsPDF st).1.invoiceToDelete = st.invoiceToDelete
    ∧ (saveAllInvoicesAsPDF st).1.store = st.store :=
  ⟨rfl, rfl, rfl, rfl, rfl, rfl, rfl, rfl, rfl⟩

/-- C10: the share validation rejects only the exactly empty string.  For
an invoice whose `customerPhone` is non-empty but contains no digit
(whitespace included), validation passes on both branches, the fallback
still generates the document, and the digit-stripping for the messaging
deep link yields an empty phone number inside the opened URL. -/
theorem handleShare_nondigit_phone (st : ListState) (invoice : Invoice)
    (h1 : invoice.customerPhone ≠ "")
    (h2 : ∀ c ∈ invoice.customerPhone.toList, ¬ c.isDigit = true) :
    (∀ hasNativeShare : Bool,
       (handleShare st hasNativeShare invoice).2.errorToasts = [])
    ∧ (handleShare st false invoice).2.generatedDocs
        = [{ lines := generatePdfLines invoice }]
    ∧ stripNonDigits invoice.customerPhone = ""
    ∧ (handleShare st false invoice).2.openedLinks
        = ["https://wa.me/" ++ stripNonDigits invoice.customerPhone
            ++ "?text=" ++ encodeURIComponent (waMessage invoice)] := by
  refine ⟨?_, ?_, ?_, ?_⟩
  · intro hasNativeShare
    cases hasNativeShare <;> simp [handleShare, h1]
  · simp [handleShare, h1]
  · unfold stripNonDigits
    have hnil : invoice.customerPhone.toList.filter Char.isDigit = [] := by
      apply List.filter_eq_nil_iff.mpr
      intro a ha
      exact h2 a ha
    rw [hnil]
  · simp [handleShare, h1]

/-! ### Concrete data for the witnesses (the scenario of the spec) -/

/-- A sample service item. -/
def svcGas : ServiceItem := { description := "AC Gas Refill", amount := 500 }

/-- Sample invoice 1 of the spec scenario. -/
def invoiceOne : Invoice :=
  { id := "1", date := "2024-01-05", customerName := "Asha Rao",
    customerPhone := "9876543210", vehicleModel := "Swift",
    vehicleNumber := "KA01AB1234", services := [svcGas], total := 500 }

/-- Sample invoice 2 of the spec scenario, with an empty phone. -/
def invoiceTwo : Invoice :=
  { id := "2", date := "2024-02-10", customerName := "Ravi", customerPhone := "",
    vehicleModel := "i20", vehicleNumber := "KA02CD5678", services := [], total := 800 }

/-- A sample invoice whose phone is whitespace only. -/
def invoiceWs : Invoice := { invoiceOne with id := "3", customerPhone := "   " }

/-- A sample invoice whose date string is unparsable. -/
def invoiceBadDate : Invoice := { invoiceOne with id := "4", date := "not-a-date" }

/-- A sample component state holding the scenario collection. -/
def stateOne : ListState :=
  { store := [invoiceOne, invoiceTwo], invoices := [invoiceOne, invoiceTwo],
    filteredInvoices := [invoiceOne, invoiceTwo], invoiceToDelete := none,
    searchVehicle := "", dateFrom := none, dateTo := none }

/-! ### Witnesses -/

/-- C1 witness: deleting id `"1"` from the scenario state. -/
theorem handleDelete_removes_id_witness :
    (handleDelete stateOne "1").1.invoices
        = stateOne.invoices.filter (fun invoice => invoice.id ≠ "1")
    ∧ (∀ inv ∈ (handleDelete stateOne "1").1.invoices, inv.id ≠ "1")
    ∧ List.Sublist (handleDelete stateOne "1").1.invoices stateOne.invoices
    ∧ ((∀ inv ∈ stateOne.invoices, inv.id ≠ "1") →
        (handleDelete stateOne "1").1.invoices = stateOne.invoices)
    ∧ (handleDelete stateOne "1").1.store = (handleDelete stateOne "1").1.invoices
    ∧ (handleDelete stateOne "1").1.filteredInvoices
        = (handleDelete stateOne "1").1.invoices
    ∧ (handleDelete stateOne "1").2 = ["Invoice deleted successfully"] :=
  handleDelete_removes_id stateOne "1"

/-- C2 witness: the substring `"ka01"` on the scenario collection. -/
theorem filterInvoices_vehicle_substring_witness :
    strTrim "ka01" ≠ ""
    ∧ (filterInvoices [invoiceOne, invoiceTwo] "ka01" none none
        = [invoiceOne, invoiceTwo].filter (fun invoice => vehicleMatches "ka01" invoice)
      ∧ List.Sublist (filterInvoices [invoiceOne, invoiceTwo] "ka01" none none)
          [invoiceOne, invoiceTwo]
      ∧ (∀ inv ∈ filterInvoices [invoiceOne, invoiceTwo] "ka01" none none,
          vehicleMatches "ka01" inv = true)
      ∧ (∀ inv ∈ [invoiceOne, invoiceTwo],
          inv ∉ filterInvoices [invoiceOne, invoiceTwo] "ka01" none none →
            vehicleMatches "ka01" inv = false)) :=
  ⟨by decide,
   filterInvoices_vehicle_substring [invoiceOne, invoiceTwo] "ka01" (by decide)⟩

/-- C3 witness: the date range `2024-02-01 .. 2024-02-28` on the scenario
collection. -/
theorem filterInvoices_date_range_witness :
    (20240201 : Nat) ≤ 20240228
    ∧ ((∀ inv ∈ filterInvoices [invoiceOne, invoiceTwo] ""
            (some 20240201) (some 20240228),
          ∃ d, parseInvoiceDate inv.date = some d ∧ 20240201 ≤ d ∧ d ≤ 20240228)
      ∧ (∀ inv : Invoice, parseInvoiceDate inv.date = some 20240201 →
           invoiceInDateRange inv 20240201 20240228 = true)
      ∧ (∀ inv : Invoice, parseInvoiceDate inv.date = some 20240228 →
           invoiceInDateRange inv 20240201 20240228 = true)
      ∧ (∀ inv : Invoice,
           inv ∈ filterInvoices [invoiceOne, invoiceTwo] ""
               (some 20240201) (some 20240228) ↔
             inv ∈ filterInvoices [invoiceOne, invoiceTwo] "" none none
               ∧ invoiceInDateRange inv 20240201 20240228 = true)) :=
  ⟨by decide,
   filterInvoices_date_range [invoiceOne, invoiceTwo] "" 20240201 20240228 (by decide)⟩

/-- C4 witness: the invoice dated `"not-a-date"` under an active range. -/
theorem filterInvoices_unparsable_excluded_witness :
    parseInvoiceDate invoiceBadDate.date = none
    ∧ (invoiceBadDate ∉ filterInvoices [invoiceOne, invoiceBadDate] ""
          (some 20240101) (some 20241231)
      ∧ List.Sublist
          (filterInvoices [invoiceOne, invoiceBadDate] ""
            (some 20240101) (some 20241231))
          [invoiceOne, invoiceBadDate]) :=
  ⟨by decide,
   filterInvoices_unparsable_excluded [invoiceOne, invoiceBadDate] ""
     20240101 20241231 invoiceBadDate (by decide)⟩

/-- C5 witness: the empty substring and absent range on the scenario
collection. -/
theorem filterInvoices_identity_witness :
    strTrim "" = ""
    ∧ filterInvoices [invoiceOne, invoiceTwo] "" none none
        = [invoiceOne, invoiceTwo] :=
  ⟨by decide, filterInvoices_identity [invoiceOne, invoiceTwo] "" (by decide)⟩

/-- C6 witness: idempotence at concrete criteria. -/
theorem filterInvoices_idempotent_witness :
    filterInvoices
        (filterInvoices [invoiceOne, invoiceTwo] "ka01"
          (some 20240101) (some 20241231))
        "ka01" (some 20240101) (some 20241231)
      = filterInvoices [invoiceOne, invoiceTwo] "ka01"
          (some 20240101) (some 20241231) :=
  filterInvoices_idempotent [invoiceOne, invoiceTwo] "ka01"
    (some 20240101) (some 20241231)

/-- C7 witness: the export line sequence of the first scenario invoice. -/
theorem generatePdfLines_fixed_order_witness :
    (generatePdfLines invoiceOne).take 7 =
      ["Invoice #" ++ invoiceOne.id,
       "Date: " ++ formatPPP (parseInvoiceDate invoiceOne.date),
       "Customer Name: " ++ invoiceOne.customerName,
       "Phone: " ++ invoiceOne.customerPhone,
       "Vehicle Model: " ++ invoiceOne.vehicleModel,
       "Vehicle Number: " ++ invoiceOne.vehicleNumber,
       "Services:"]
    ∧ (∀ (k : Nat) (svc : ServiceItem), invoiceOne.services[k]? = some svc →
        (generatePdfLines invoiceOne)[7 + k]? =
          some (toString (k + 1) ++ ". " ++ svc.description ++ " - ₹"
            ++ toString svc.amount))
    ∧ (generatePdfLines invoiceOne).getLast?
        = some ("Total: ₹" ++ toString invoiceOne.total)
    ∧ (generatePdfLines invoiceOne).length = invoiceOne.services.length + 8 :=
  generatePdfLines_fixed_order invoiceOne

/-- C8 witness: sharing the invoice with the empty phone. -/
theorem handleShare_empty_phone_witness :
    invoiceTwo.customerPhone = ""
    ∧ ((handleShare stateOne true invoiceTwo).1 = stateOne
      ∧ (handleShare stateOne true invoiceTwo).2.errorToasts
          = ["Customer phone number is missing."]
      ∧ (handleShare stateOne true invoiceTwo).2.generatedDocs = []
      ∧ (handleShare stateOne true invoiceTwo).2.nativeShareCalls = []
      ∧ (handleShare stateOne true invoiceTwo).2.openedLinks = []) :=
  ⟨rfl, handleShare_empty_phone stateOne true invoiceTwo rfl⟩

/-- C9 witness: exporting the first scenario invoice from the scenario
state. -/
theorem export_preserves_state_witness :
    (downloadInvoice stateOne invoiceOne).1 = stateOne
    ∧ (saveAllInvoicesAsPDF stateOne).1 = stateOne
    ∧ (saveAllInvoicesAsPDF stateOne).1.invoices = stateOne.invoices
    ∧ (saveAllInvoicesAsPDF stateOne).1.filteredInvoices
        = stateOne.filteredInvoices
    ∧ (saveAllInvoicesAsPDF stateOne).1.searchVehicle = stateOne.searchVehicle
    ∧ (saveAllInvoicesAsPDF stateOne).1.dateFrom = stateOne.dateFrom
    ∧ (saveAllInvoicesAsPDF stateOne).1.dateTo = stateOne.dateTo
    ∧ (saveAllInvoicesAsPDF stateOne).1.invoiceToDelete = stateOne.invoiceToDelete
    ∧ (saveAllInvoicesAsPDF stateOne).1.store = stateOne.store :=
  export_preserves_state stateOne invoiceOne

/-- C10 witness: sharing the invoice whose phone is whitespace only. -/
theorem handleShare_nondigit_phone_witness :
    invoiceWs.customerPhone ≠ ""
    ∧ (∀ c ∈ invoiceWs.customerPhone.toList, ¬ c.isDigit = true)
    ∧ ((∀ hasNativeShare : Bool,
          (handleShare stateOne hasNativeShare invoiceWs).2.errorToasts = [])
      ∧ (handleShare stateOne false invoiceWs).2.generatedDocs
          = [{ lines := generatePdfLines invoiceWs }]
      ∧ stripNonDigits invoiceWs.customerPhone = ""
      ∧ (handleShare stateOne false invoiceWs).2.openedLinks
          = ["https://wa.me/" ++ stripNonDigits invoiceWs.customerPhone
              ++ "?text=" ++ encodeURIComponent (waMessage invoiceWs)]) :=
  ⟨by decide, by decide,
   handleShare_nondigit_phone stateOne invoiceWs (by decide) (by decide)⟩

end GMBilling
